import Mathlib

/-!
Verification development for a collection of Streamlit geospatial dashboard
pages (Home.py and src/pages/*.py).  Each page is a Python script gluing
DuckDB queries to PyDeck/Plotly renderers.  The definitions below are a
shallow embedding of the parts of those scripts that the verified claims
talk about: the query-builder functions, the session-state click handlers,
the error-handling wrappers, and a registry of the database-connection
sites and per-page step sequences.

Modelling conventions:
* Python strings are Lean `String`s.  The surrounding indentation
  whitespace of Python triple-quoted SQL literals is not reproduced; the
  SQL text itself (keywords, identifiers, interpolated fragments, quoting)
  is kept verbatim, with lines joined by `\n`.  A single-quote character
  inside SQL text is written via the constant `sq` (`"\x27"`).
* Database execution, network fetches and file parses are abstracted as
  explicit oracles (`String → Except String _`), so a raised Python
  exception is an `Except.error`.
* `st.session_state` is modelled as an explicit record passed through the
  handlers; `st.rerun()` is a returned flag.
* Floating-point coordinates are modelled as `Rat`; bounding-box
  coordinates that are only ever interpolated back into SQL text are kept
  as the interpolated strings.
-/

namespace Dash

/-- Single-quote character (`'`), used when assembling SQL text. -/
def sq : String := "\x27"

/-! ## Substring machinery (used to state facts about assembled SQL text) -/

/-- Decidable check that the character list `small` occurs contiguously
inside `big`. -/
def containsSub (small : List Char) : List Char → Bool
  | [] => small.isEmpty
  | c :: rest => small.isPrefixOf (c :: rest) || containsSub small rest

/-- `SubstrOf small big` holds when the string `small` occurs contiguously
inside the string `big`. -/
def SubstrOf (small big : String) : Prop := containsSub small.data big.data = true

/-! ## `sanitize_filename` (src/pages/map.py, lines 40–49) -/

/-- Python `name.replace(' ', '_')`: every space becomes an underscore. -/
def replaceSpaces (s : String) : String :=
  ⟨s.data.map (fun c => if c = ' ' then '_' else c)⟩

/-- The character class kept by `re.sub(r'[^\w\-]', '', name)` restricted
to ASCII characters, where Python's `\w` is exactly alphanumeric or
underscore.  `\w` is a Unicode class on arbitrary input; the general form
is the parameter `w` of `sanitize_filename_w` below.  This ASCII instance
is exact on ASCII inputs such as the 18 district names. -/
def isWordOrHyphen (c : Char) : Bool := c.isAlphanum || c = '_' || c = '-'

/-- `sanitize_filename` from src/pages/map.py at ASCII inputs (such as the
district names it is applied to): replace spaces with underscores, then
delete every character that is not a word character or a hyphen. -/
def sanitize_filename (s : String) : String :=
  ⟨(replaceSpaces s).data.filter isWordOrHyphen⟩

/-- `sanitize_filename` over an arbitrary input string: `w` abstracts
Python's Unicode word-character class `\w` (the Unicode alphanumerics plus
the underscore, per the `re` module; `w '_' = true`, and on ASCII
characters `w` is alphanumeric-or-underscore).  The function keeps exactly
the characters of the space-mapped input that are in `\w` or are the
hyphen. -/
def sanitize_filename_w (w : Char → Bool) (s : String) : String :=
  ⟨(replaceSpaces s).data.filter (fun c => w c || c = '-')⟩

/-! ## `is_geojson_empty` (src/pages/map.py, lines 12–39)

The ijson event stream is modelled as a list of (prefix, event) pairs; the
`value` component is never inspected by the source.  A parse/IO exception
is the `Except.error` case. -/

/-- One (prefix, event) pair of the ijson event stream. -/
abbrev IjsonEvent := String × String

/-- The event marking the start of the first feature
(`prefix == 'features.item' and event == 'start_map'`). -/
def featureStart (pe : IjsonEvent) : Bool :=
  pe.1 == "features.item" && pe.2 == "start_map"

/-- The event marking the end of the features array
(`prefix == 'features' and event == 'end_array'`). -/
def featuresEnd (pe : IjsonEvent) : Bool :=
  pe.1 == "features" && pe.2 == "end_array"

/-- The `for prefix, event, value in parser` loop of `is_geojson_empty`:
return `False` on the first feature start, break (returning `True`) at the
end of the features array, otherwise continue; falling off the end of the
stream returns `True`. -/
def isGeojsonEmptyLoop : List IjsonEvent → Bool
  | [] => true
  | pe :: rest =>
    if featureStart pe then false
    else if featuresEnd pe then true
    else isGeojsonEmptyLoop rest

/-- `is_geojson_empty`: any exception while opening/parsing the file is
caught and treated as empty (`return True`). -/
def is_geojson_empty : Except String (List IjsonEvent) → Bool
  | .error _ => true
  | .ok evs => isGeojsonEmptyLoop evs

/-- The housing GeoJSON input of `build_duckdb_queries`: the file is either
missing (`os.path.exists` false) or present with a parse outcome. -/
inductive HousingFile where
  | missing : HousingFile
  | file : Except String (List IjsonEvent) → HousingFile

/-! ## `build_duckdb_queries` (src/pages/map.py, lines 50–161) -/

/-- Districts whose lot data is split into multi-part Parquet files
(compared against the sanitized district name). -/
def split_districts : List String := ["North", "Tai_Po", "Yuen_Long"]

/-- `part_files`: the four part files assumed for each split district. -/
def part_files (name : String) : List String :=
  (List.range 4).map (fun i => "data/" ++ name ++ "_lot_part" ++ toString (i + 1) ++ ".parquet")

/-- `union_query`: the UNION ALL over the four part files, with geometry
simplified by `ST_simplify(geometry,0.0001)`. -/
def union_query (name : String) : String :=
  " UNION ALL ".intercalate ((part_files name).map (fun f =>
    "SELECT OBJECTID,LOTID,ST_simplify(geometry,0.0001) as geom FROM read_parquet(" ++ sq ++ f ++ sq ++ ")"))

/-- Query 1 for split districts: lot table as the union of the parts. -/
def query1_split (name : String) : String :=
  "CREATE OR REPLACE TABLE " ++ name ++ "_lot AS\n" ++ union_query name ++ ";"

/-- Query 1 for non-split districts: lot table from the single Parquet
file, geometry taken unsimplified (`geometry as geom`). -/
def query1_single (name lotPath : String) : String :=
  "CREATE OR REPLACE TABLE " ++ name ++ "_lot AS\n" ++
  "SELECT OBJECTID, LOTID,\n" ++
  "geometry as geom\n" ++
  "FROM read_parquet(" ++ sq ++ lotPath ++ sq ++ ");"

/-- Query 2: the housing_units table read from the district housing
GeoJSON. -/
def query2_housing (housingPath : String) : String :=
  "CREATE OR REPLACE TABLE housing_units AS\n" ++
  "SELECT\n" ++
  "date,\naddress,\nprice,\n" ++
  "CASE\nWHEN changes LIKE " ++ sq ++ "--" ++ sq ++ " THEN 0\n" ++
  "ELSE CAST(REGEXP_REPLACE(changes, " ++ sq ++ "%" ++ sq ++ ", " ++ sq ++ sq ++ ") AS INT)\n" ++
  "END AS changes,\n" ++
  "\"saleable_area(ft^2)\",\nunit_rate,\ndistrict,\nTower,\nFlat,\nPhase,\nBlock,\nRental,\n" ++
  "\"Public Housing\",\nfloor,\nlatitude,\nlongitude,\ngeom\n" ++
  "FROM st_read(" ++ sq ++ housingPath ++ sq ++ ");"

/-- Query 3: average price per lot from a spatial join. -/
def query3_avg (name : String) : String :=
  "CREATE OR REPLACE TABLE average_price_per_lot AS\n" ++
  "SELECT\nlot.LOTID,\nAVG(h.unit_rate) AS avg_unit_price,\nAVG(h.changes) AS avg_change\n" ++
  "FROM\n" ++ name ++ "_lot AS lot\nLEFT JOIN\nhousing_units AS h\nON\n" ++
  "ST_Contains(lot.geom, h.geom)\nGROUP BY\nlot.LOTID;"

/-- Query 4: lots joined back with their average price. -/
def query4_join (name : String) : String :=
  "CREATE OR REPLACE TABLE lots_with_avg_price AS\n" ++
  "SELECT\nlot.*,\nCOALESCE(avg_price.avg_unit_price, 0) AS avg_unit_price,\n" ++
  "COALESCE(avg_price.avg_change,0) as avg_change_percent\n" ++
  "FROM\n" ++ name ++ "_lot AS lot\nLEFT JOIN\naverage_price_per_lot AS avg_price\nON\n" ++
  "lot.LOTID = avg_price.LOTID;"

/-- `build_duckdb_queries` (src/pages/map.py): return `[]` when the housing
GeoJSON is missing or empty (a parse error counts as empty), otherwise the
four CREATE queries in order. -/
def build_duckdb_queries (sanitized_name lotPath housingPath : String)
    (housing : HousingFile) : List String :=
  match housing with
  | .missing => []
  | .file p =>
    if is_geojson_empty p then []
    else
      (if split_districts.contains sanitized_name then query1_split sanitized_name
       else query1_single sanitized_name lotPath)
      :: [query2_housing housingPath, query3_avg sanitized_name, query4_join sanitized_name]

/-- The lot Parquet path built in `main` (src/pages/map.py line 277). -/
def district_lot_path (name : String) : String := "data/" ++ name ++ "_lot.parquet"

/-- The housing GeoJSON path built in `main` (src/pages/map.py line 278). -/
def district_housing_path (name : String) : String := "data/" ++ name ++ "_hk2020.geojson"

/-- The 18 Hong Kong districts offered by the selectbox
(src/pages/map.py lines 248–267). -/
def hk_districts : List String :=
  ["Central and Western", "Eastern", "Southern", "Wan Chai", "Kowloon City",
   "Kwun Tong", "Sham Shui Po", "Wong Tai Sin", "Yau Tsim Mong", "Islands",
   "Kwai Tsing", "North", "Sai Kung", "Sha Tin", "Tai Po", "Tsuen Wan",
   "Tuen Mun", "Yuen Long"]

/-- A housing file that parses and contains at least one feature, so that
`build_duckdb_queries` takes its non-empty branch. -/
def goodHousing : HousingFile := .file (.ok [("features.item", "start_map")])

/-! ## `execute_duckdb_queries` (src/pages/map.py, lines 163–190)

The function is modelled over an execution oracle `exec`.  Its result is
the pair (inline messages displayed on the page, exception propagated to
the caller): the source displays `st.error(...)` for the failing query,
closes the connection, and then re-raises the exception (`raise e`). -/

/-- The `st.error` text displayed for a failing query. -/
def format_query_error (idx : Nat) (e : String) : String :=
  "❌ Error executing Query " ++ toString idx ++ ": " ++ e

/-- The `st.warning` text displayed when the query list is empty. -/
def no_data_warning : String := "⚠️ No data in the selected area."

/-- The `for idx, query in enumerate(queries, start=1)` loop of
`execute_duckdb_queries`: run each query; on the first failure display the
error inline and propagate the exception. -/
def executeQueriesFrom (exec : String → Except String Unit) :
    Nat → List String → List String × Option String
  | _, [] => ([], none)
  | idx, q :: rest =>
    match exec q with
    | .ok _ => executeQueriesFrom exec (idx + 1) rest
    | .error e => ([format_query_error idx e], some e)

/-- `execute_duckdb_queries`: warn and stop on an empty query list,
otherwise execute the queries starting at index 1. -/
def execute_duckdb_queries (exec : String → Except String Unit)
    (queries : List String) : List String × Option String :=
  if queries.isEmpty then ([no_data_warning], none)
  else executeQueriesFrom exec 1 queries

/-! ## SevenEleven.py main query (lines 61–64)

`df_point_data = con.sql(query).df()` runs with no `try`/`except` around
it: a database exception propagates out of `main` and no inline message is
displayed. -/

/-- The 7-Eleven page query. -/
def sevenEleven_query : String := "SELECT * FROM hk_711"

/-- The unguarded query call of SevenEleven.py `main`: result is (inline
messages displayed, exception propagated).  No handler exists, so the
message list is always empty and any failure propagates. -/
def sevenEleven_load (exec : String → Except String Unit) :
    List String × Option String :=
  match exec sevenEleven_query with
  | .ok _ => ([], none)
  | .error e => ([], some e)

/-! ## Foursquare POI.py session-state plumbing (lines 27–194) -/

/-- One record of the `fsq_coffee` table / one picked object payload. -/
structure Shop where
  name : String
  latitude : Rat
  longitude : Rat
  website : Option String
  tel : Option String
deriving DecidableEq

/-- A `pdk.ViewState` (the fields varied by this page). -/
structure ViewState where
  latitude : Rat
  longitude : Rat
  zoom : Nat
  bearing : Nat
  pitch : Nat
deriving DecidableEq

/-- A `pdk.Deck`; the layer and tooltip are page constants, so only the
initial view state is carried. -/
structure Deck where
  initial_view_state : ViewState
deriving DecidableEq

/-- `create_deck(latitude, longitude, zoom)` from Foursquare POI.py:
a deck whose view is centred at the given point with `bearing=0`,
`pitch=0`. -/
def create_deck (latitude longitude : Rat) (zoom : Nat) : Deck :=
  ⟨⟨latitude, longitude, zoom, 0, 0⟩⟩

/-- The `st.session_state["events"]` dictionary: event key ↦ deck. -/
def Events := String → Option Deck

/-- Dictionary assignment `events[k] = d`. -/
def setEvent (evs : Events) (k : String) (d : Deck) : Events :=
  fun k2 => if k2 = k then some d else evs k2

/-- The session-state fields used by the coffee-shop page. -/
structure SessionState where
  current_event_num : Nat
  events : Events
  selected_shop : Option Shop

/-- Event keys are `"event1"`, `"event2"`, …. -/
def eventKey (n : Nat) : String := "event" ++ toString n

/-- The selection branch of Foursquare POI.py `main` (lines 164–186).  The
argument `sel` is the picked object when the deck selection contains a
`"Coffee Shop"` entry (`selection_mode="single-object"`), else `none`.  On
a pick: store the payload in `selected_shop`, increment
`current_event_num`, store a deck centred on the pick at zoom 18 under the
next event key, and request a rerun (the returned flag). -/
def selectionStep (sel : Option Shop) (st : SessionState) : SessionState × Bool :=
  match sel with
  | some obj =>
    let st1 : SessionState :=
      { st with selected_shop := some obj,
                current_event_num := st.current_event_num + 1 }
    let key := eventKey st1.current_event_num
    ({ st1 with
        events := setEvent st1.events key (create_deck obj.latitude obj.longitude 18) },
     true)
  | none => (st, false)

/-- The Reset View button handler (lines 189–194): clear the events
dictionary, clear the selected shop, and set the event number back to 1. -/
def resetView (st : SessionState) : SessionState :=
  { st with events := fun _ => none,
            selected_shop := none,
            current_event_num := 1 }

/-- A concrete shop payload, for witnesses. -/
def shop0 : Shop := ⟨"Cupping Room", 22311/1000, 1141690/10000, some "https://example.hk", none⟩

/-- A concrete initial session state, for witnesses. -/
def state0 : SessionState := ⟨1, fun _ => none, none⟩

/-! ## Page-step transcripts (claim C3)

Each page script is transcribed as the sequence of its top-level
effectful operations in source order, along the straight-line success
path: opening a DuckDB connection, loading the spatial extension
(`INSTALL spatial; LOAD spatial;`), executing a query, reading a local
file, an HTTP fetch, and displaying data to the user.  Parameterised
query texts are abbreviated to representative fragments.  src/temp.py is
a scratch duplicate of the coffee page that is not routed as a dashboard
page, so it is not listed. -/

/-- One top-level effectful operation of a page script. -/
inductive PageStep where
  | connectDb (target : String)
  | loadSpatial
  | runQuery (q : String)
  | readFile (path : String)
  | httpGet (url : String)
  | display
deriving DecidableEq

/-- Home.py: loads a CSS file, fetches seven Lottie animation URLs
(one shown, the rest analogous), then renders; there is no database use. -/
def home_steps : List PageStep :=
  [.readFile "style/style.css",
   .httpGet "https://lottie.host/00517c35-de11-4d81-b606-f0b1e4427991/uexdHHLp7o.json",
   .display]

/-- Hongkong Population Distribution.py: reads a CSV and renders an
H3 hexagon layer; it never connects to a database. -/
def hk_population_steps : List PageStep :=
  [.readFile "data/hk_pop_dist.csv", .display]

/-- Foursquare POI.py: connect to data/coffee.db, load spatial, query the
coffee table, render. -/
def foursquare_steps : List PageStep :=
  [.connectDb "data/coffee.db", .loadSpatial,
   .runQuery "SELECT name, longitude, latitude, website, tel FROM fsq_coffee",
   .display]

/-- SevenEleven.py: connect to hk_711.duckdb, load spatial, query, read the
isochrones GeoJSON when the checkbox is set, render. -/
def sevenEleven_steps : List PageStep :=
  [.connectDb "hk_711.duckdb", .loadSpatial, .runQuery sevenEleven_query,
   .readFile "data/isochrones_7-Eleven_hongkong.geojson", .display]

/-- OvertureMap POI.py: connect in-memory, load spatial, read the
categories CSV, geocode the country via Nominatim, query the Overture
S3 dataset, render. -/
def overture_steps : List PageStep :=
  [.connectDb ":memory:", .loadSpatial, .readFile "data/categories.csv",
   .httpGet "http://nominatim.openstreetmap.org/search",
   .runQuery "SELECT names,ST_X(geometry) as lon, ST_Y(geometry) as lat FROM read_parquet(s3://overturemaps-us-west-2/...)",
   .display]

/-- Airbnb Street Density Map.py: connect (target string ":memory",
missing the trailing colon), load spatial and h3, run the listing
queries, render. -/
def airbnb_steps : List PageStep :=
  [.connectDb ":memory", .loadSpatial,
   .runQuery "SELECT id, listing_url, name, ... FROM read_csv(data/hk_listing.csv)",
   .runQuery "CREATE OR REPLACE TABLE airbnb AS ...",
   .runQuery "SELECT * FROM airbnb",
   .display]

/-- Citibike Data Dashboard.py: connect in-memory, load spatial, create the
main and sample tables, select the sample, render. -/
def citibike_steps : List PageStep :=
  [.connectDb ":memory:", .loadSpatial,
   .runQuery "CREATE OR REPLACE TABLE citibike_data_year AS ...",
   .runQuery "CREATE OR REPLACE TABLE citibike_sample_year_12percent AS ...",
   .runQuery "SELECT * FROM citibike_sample_year_12percent",
   .display]

/-- Holiday Ridership Compare.py: connect in-memory, load spatial,
materialize the station tables, run the comparison query, read the
neighbourhood GeoJSON, render. -/
def holiday_steps : List PageStep :=
  [.connectDb ":memory:", .loadSpatial,
   .runQuery "CREATE OR REPLACE TABLE unique_stations AS ...",
   .runQuery "CREATE OR REPLACE TABLE stations_with_neighborhoods AS ...",
   .runQuery "WITH categorized_trips AS ... SELECT hour_of_day, category, neighborhood, ...",
   .readFile "data/nyc_bound.geojson", .display]

/-- map.py (Hong Kong housing): check the housing GeoJSON, then
`execute_duckdb_queries` connects to the on-disk hong_kong_data.duckdb,
loads spatial and runs the four CREATE queries;
`execute_duckdb_select_query` reconnects, loads spatial and selects;
then render. -/
def housing_map_steps : List PageStep :=
  [.readFile "data/district_hk2020.geojson",
   .connectDb "hong_kong_data.duckdb", .loadSpatial,
   .runQuery "CREATE OR REPLACE TABLE district_lot AS ...",
   .runQuery "CREATE OR REPLACE TABLE housing_units AS ...",
   .runQuery "CREATE OR REPLACE TABLE average_price_per_lot AS ...",
   .runQuery "CREATE OR REPLACE TABLE lots_with_avg_price AS ...",
   .connectDb "hong_kong_data.duckdb", .loadSpatial,
   .runQuery "SELECT LOTID,avg_unit_price,avg_change_percent,ST_ASTEXT(geom) as wkt_geom FROM lots_with_avg_price ORDER BY avg_unit_price DESC",
   .display]

/-- The dashboard pages and their step transcripts. -/
def pages : List (String × List PageStep) :=
  [("Home", home_steps),
   ("Hongkong Population Distribution", hk_population_steps),
   ("Foursquare POI", foursquare_steps),
   ("SevenEleven", sevenEleven_steps),
   ("OvertureMap POI", overture_steps),
   ("Airbnb Street Density Map", airbnb_steps),
   ("Citibike Data Dashboard", citibike_steps),
   ("Holiday Ridership Compare", holiday_steps),
   ("map", housing_map_steps)]

/-- Step classifiers. -/
def isConnect : PageStep → Bool
  | .connectDb _ => true
  | _ => false

/-- True for the load-spatial step. -/
def isLoadSpatial : PageStep → Bool
  | .loadSpatial => true
  | _ => false

/-- True for a query-execution step. -/
def isQuery : PageStep → Bool
  | .runQuery _ => true
  | _ => false

/-- True for a display step. -/
def isDisplay : PageStep → Bool
  | .display => true
  | _ => false

/-- A connection is opened and the spatial extension loaded before the
first display step. -/
def connectsBeforeFirstDisplay (steps : List PageStep) : Bool :=
  ((steps.takeWhile (fun s => !isDisplay s)).any isConnect)
  && ((steps.takeWhile (fun s => !isDisplay s)).any isLoadSpatial)

/-- A connection is opened and the spatial extension loaded before the
first query step. -/
def connectsBeforeFirstQuery (steps : List PageStep) : Bool :=
  ((steps.takeWhile (fun s => !isQuery s)).any isConnect)
  && ((steps.takeWhile (fun s => !isQuery s)).any isLoadSpatial)

/-! ## Database-connection sites (claim C4)

Every `duckdb.connect` call site in the repository's pages, with the
`database=` argument string, whether the connection object itself is
cached across reruns and sessions (`@st.cache_resource`), and whether the
page issues `CREATE OR REPLACE TABLE` statements over that connection. -/

/-- One `duckdb.connect` call site. -/
structure ConnSite where
  page : String
  target : String
  cached : Bool
  createsTables : Bool
deriving DecidableEq

/-- DuckDB treats exactly the path `":memory:"` (or an empty path) as an
in-memory database; any other string is a filesystem path. -/
def isInMemoryTarget (t : String) : Bool := t = ":memory:" || t = ""

/-- map.py `execute_duckdb_queries`: on-disk hong_kong_data.duckdb, a fresh
connection per call (the `@st.cache_data` on the function caches its
return value, not the connection), runs the CREATE queries. -/
def map_execute_site : ConnSite := ⟨"map.execute_duckdb_queries", "hong_kong_data.duckdb", false, true⟩

/-- map.py `execute_duckdb_select_query`: same on-disk file, SELECT only. -/
def map_select_site : ConnSite := ⟨"map.execute_duckdb_select_query", "hong_kong_data.duckdb", false, false⟩

/-- Foursquare POI.py `connect_to_duckdb`: pre-existing on-disk
data/coffee.db, SELECT only. -/
def foursquare_site : ConnSite := ⟨"Foursquare POI.connect_to_duckdb", "data/coffee.db", false, false⟩

/-- SevenEleven.py `connect_to_duckdb`: pre-existing on-disk hk_711.duckdb,
SELECT only. -/
def sevenEleven_site : ConnSite := ⟨"SevenEleven.connect_to_duckdb", "hk_711.duckdb", false, false⟩

/-- Citibike Data Dashboard.py `connect_to_duckdb`: in-memory, a fresh
connection per run (closed at the end of `main`), creates tables. -/
def citibike_site : ConnSite := ⟨"Citibike Data Dashboard.connect_to_duckdb", ":memory:", false, true⟩

/-- Holiday Ridership Compare.py `get_db_connection`: in-memory, but the
function is decorated `@st.cache_resource(ttl=datetime.timedelta(hours=1))`
(line 70), so the connection object — and with it the in-memory database
and its CREATEd tables — is shared across reruns and sessions for the
cache lifetime; the `materialized_for_year` skip at line 277 relies on
exactly this. -/
def holiday_site : ConnSite := ⟨"Holiday Ridership Compare.get_db_connection", ":memory:", true, true⟩

/-- OvertureMap POI.py `connect_to_duckdb`: in-memory, SELECT only. -/
def overture_site : ConnSite := ⟨"OvertureMap POI.connect_to_duckdb", ":memory:", false, false⟩

/-- Airbnb Street Density Map.py `connect_to_duckdb`: the target string is
`":memory"` (missing the trailing colon), which DuckDB resolves to an
on-disk file of that name; the page creates the `airbnb` table. -/
def airbnb_site : ConnSite := ⟨"Airbnb Street Density Map.connect_to_duckdb", ":memory", false, true⟩

/-- All `duckdb.connect` sites of the repository's pages. -/
def conn_sites : List ConnSite :=
  [map_execute_site, map_select_site, foursquare_site, sevenEleven_site,
   citibike_site, holiday_site, overture_site, airbnb_site]

/-- A site whose created tables outlive the render: the page writes tables
over a connection whose contents survive the run, either because the
target is an on-disk file or because the connection object itself is
cached across reruns and sessions. -/
def persistsAcrossLoads (s : ConnSite) : Bool :=
  (!isInMemoryTarget s.target || s.cached) && s.createsTables

/-! ## OvertureMap POI.py query building (lines 98–140) -/

/-- Python `str.lower()` (character-wise; exact on ASCII text such as the
Overture category codes). -/
def lowerStr (s : String) : String := ⟨s.data.map Char.toLower⟩

/-- The regex metacharacters of Python `re`, by code point: dot, caret,
dollar, star, plus, question mark, the two braces, the two square
brackets, backslash, vertical bar and the two parentheses. -/
def regexMetaChar (c : Char) : Bool :=
  [46, 94, 36, 42, 43, 63, 123, 125, 91, 93, 92, 124, 40, 41].contains c.toNat

/-- A pattern containing no regex metacharacter: on such patterns
`re.search` is exactly a substring test. -/
def plainPattern (p : String) : Bool := !(p.data.any regexMetaChar)

/-- Reference matcher: the value of `re.search(cat.lower(), code.lower())`
(pandas `str.contains` with its default `regex=True`) at metacharacter-free
ASCII patterns, where it is exactly a case-insensitive substring test.  It
is instantiated below only at such patterns. -/
def plainMatch (cat code : String) : Bool :=
  containsSub (lowerStr cat).data (lowerStr code).data

/-- The category gate of OvertureMap POI.py: pandas
`df['Category code'].str.lower().str.contains(user_category_lower, na=False)`
applied to each code, valid when some code matches.  `str.contains` treats
the user input as a regular expression (`regex=True` by default), so the
per-code test `re.search(cat.lower(), code.lower())` is abstracted as the
`matcher` oracle rather than given fixed substring semantics. -/
def validCategory (matcher : String → String → Bool) (codes : List String)
    (cat : String) : Bool :=
  codes.any (fun code => matcher cat code)

/-- The Overture places query text, with the four bounding-box coordinates
and the raw user category interpolated in. -/
def overture_query (min_x max_x min_y max_y cat : String) : String :=
  "SELECT names,ST_X(geometry) as lon, ST_Y(geometry) as lat\n" ++
  "FROM read_parquet(" ++ sq ++ "s3://overturemaps-us-west-2/release/2024-09-18.0/theme=places/*/*" ++ sq ++ ")\n" ++
  "WHERE\n" ++
  "bbox.xmin >= " ++ min_x ++ " AND bbox.xmax <=" ++ max_x ++ "\n" ++
  "AND bbox.ymin >= " ++ min_y ++ " AND bbox.ymax <=" ++ max_y ++ "\n" ++
  "AND (categories.primary=" ++ sq ++ cat ++ (sq ++ ")")

/-- The query-construction logic of OvertureMap POI.py `main`: the category
must be non-empty and match the categories file (via the abstracted
regex-search `matcher`), the country must be non-empty with a bounding-box
lookup returning exactly four values (`[min_y, max_y, min_x, max_x]`);
only then is the query built. -/
def overture_build_query (matcher : String → String → Bool) (codes : List String)
    (user_category country : String)
    (bbox_lookup : Option (List String)) : Option String :=
  let valid_category := user_category != "" && validCategory matcher codes user_category
  match (if country != "" then bbox_lookup else none) with
  | some [min_y, max_y, min_x, max_x] =>
    if valid_category then some (overture_query min_x max_x min_y max_y user_category)
    else none
  | _ => none

/-! ## Holiday Ridership Compare.py `materialize_unique_stations_table`
(lines 83–99) -/

/-- The Citibike S3 Parquet path. -/
def citibike_s3_path : String :=
  "s3://us-west-2.opendata.source.coop/zluo43/citibike/new_schema_combined_with_geom.parquet/**/*.parquet"

/-- The unique-stations CREATE query: the selected year is interpolated
directly into the SQL text with no gate. -/
def materialize_unique_stations_query (year : Int) : String :=
  "CREATE OR REPLACE TABLE unique_stations AS\n" ++
  "SELECT\nstart_station_name,\nAVG(start_lat) as lat,\nAVG(start_lng) as lon\n" ++
  "FROM read_parquet(" ++ sq ++ citibike_s3_path ++ sq ++ ", hive_partitioning=1)\n" ++
  "WHERE start_station_name IS NOT NULL AND year = " ++ toString year ++
  ("\nGROUP BY start_station_name;")

/-! ## Citibike Data Dashboard.py `load_citibike_data` (lines 24–65) -/

/-- An Arrow table; the page only inspects its row count. -/
structure ArrowTable where
  numRows : Nat
deriving DecidableEq

/-- A DuckDB connection, abstracted as its execution oracles
(`con.execute(...)` and `con.execute(...).arrow()`). -/
structure DuckConn where
  run : String → Except String Unit
  runArrow : String → Except String ArrowTable

/-- `main_table_name = f"citibike_data_{year}"`. -/
def citibike_main_table (year : Int) : String := "citibike_data_" ++ toString year

/-- `sample_table_name = f"citibike_sample_{year}_12percent"`. -/
def citibike_sample_table (year : Int) : String :=
  "citibike_sample_" ++ toString year ++ "_12percent"

/-- The CREATE for the per-year main table (filters `WHERE year={year}`). -/
def query_create_main_table (year : Int) : String :=
  "CREATE OR REPLACE TABLE " ++ citibike_main_table year ++ " AS\n" ++
  "SELECT ride_id, rideable_type, started_at as start_time, ended_at as end_time,\n" ++
  "start_station_id, start_station_name, end_station_id, end_station_name, member_casual\n" ++
  "FROM read_parquet(" ++ sq ++ citibike_s3_path ++ sq ++ ", hive_partitioning=1)\n" ++
  ("WHERE year=" ++ toString year) ++ ";"

/-- The CREATE for the sample table: a 12% Bernoulli sample (the source
docstring says 25%, the code says 12%). -/
def query_create_sample_table (year : Int) : String :=
  "CREATE OR REPLACE TABLE " ++ citibike_sample_table year ++ " AS\n" ++
  "SELECT * FROM " ++ citibike_main_table year ++ "\n" ++
  "USING SAMPLE 12% (BERNOULLI)" ++ ";"

/-- The `try` body of `load_citibike_data`: run the two CREATEs and fetch
the sample as an Arrow table; any raising step lands in the page-level
`except`, which displays the error and returns `None`. -/
def load_citibike_body (c : DuckConn) (year : Int) : Option ArrowTable :=
  match c.run (query_create_main_table year) with
  | .error _ => none
  | .ok _ =>
    match c.run (query_create_sample_table year) with
    | .error _ => none
    | .ok _ =>
      match c.runArrow ("SELECT * FROM " ++ citibike_sample_table year) with
      | .error _ => none
      | .ok t => some t

/-- `load_citibike_data`: `None` connection returns `None`; otherwise the
guarded body. -/
def load_citibike_data (con : Option DuckConn) (year : Int) : Option ArrowTable :=
  match con with
  | none => none
  | some c => load_citibike_body c year

/-- A connection on which every statement succeeds and the sample fetch
returns a 42-row table, for witnesses. -/
def con_ok : DuckConn := ⟨fun _ => .ok (), fun _ => .ok ⟨42⟩⟩

end Dash

namespace Dash

/-! ## Substring lemmas -/

theorem containsSub_iff (small : List Char) (big : List Char) :
    containsSub small big = true ↔ small <:+: big := by
  induction big with
  | nil =>
    simp [containsSub, List.isEmpty_iff, List.infix_nil]
  | cons c rest ih =>
    simp [containsSub, List.infix_cons_iff, List.isPrefixOf_iff_prefix, ih, Bool.or_eq_true]

theorem substrOf_append_middle (a s b : String) : SubstrOf s (a ++ s ++ b) := by
  unfold SubstrOf
  rw [containsSub_iff]
  rw [String.data_append, String.data_append]
  exact List.infix_append a.data s.data b.data

end Dash

namespace Dash

/-! ## Claim C10: sanitize_filename -/

/-- C10: for every word-character class `w` (Python's Unicode `\w`, which
contains the underscore) and every input string, `sanitize_filename`
returns a string containing only alphanumeric-or-underscore characters
(members of `\w`) and hyphens; every space of the input becomes an
underscore and is kept, every other character outside the class is
removed, and the remaining characters are kept in their original order
(the output is exactly the allowed-character filter of the space-mapped
input, hence a sublist of it); and on all-ASCII inputs, where `\w` is
exactly ASCII alphanumeric-or-underscore, the function coincides with the
ASCII instance `sanitize_filename` used on the district names. -/
theorem sanitize_filename_spec (w : Char → Bool) (s : String) (hw : w '_' = true) :
    (∀ c ∈ (sanitize_filename_w w s).data, w c = true ∨ c = '-')
    ∧ (sanitize_filename_w w s).data
        = (s.data.map (fun c => if c = ' ' then '_' else c)).filter (fun c => w c || c = '-')
    ∧ List.Sublist (sanitize_filename_w w s).data
        (s.data.map (fun c => if c = ' ' then '_' else c))
    ∧ (sanitize_filename_w w s).data.count '_' = (replaceSpaces s).data.count '_'
    ∧ ((∀ c ∈ s.data, c.toNat < 128) →
        (∀ c, c.toNat < 128 → w c = (c.isAlphanum || c = '_')) →
        sanitize_filename_w w s = sanitize_filename s) := by
  refine ⟨?_, rfl, ?_, ?_, ?_⟩
  · intro c hc
    have hmem := List.of_mem_filter (p := fun c => w c || c = '-') hc
    simp only [Bool.or_eq_true, decide_eq_true_eq] at hmem
    tauto
  · exact List.filter_sublist _
  · show (List.filter (fun c => w c || c = '-') (replaceSpaces s).data).count '_' = _
    rw [List.count_filter]
    simp [hw]
  · intro hascii hAgree
    unfold sanitize_filename_w sanitize_filename
    congr 1
    refine List.filter_congr ?_
    intro c hc
    have hc2 : c ∈ s.data.map (fun c => if c = ' ' then '_' else c) := hc
    rcases List.mem_map.mp hc2 with ⟨orig, horig, hmap⟩
    have hlt : c.toNat < 128 := by
      by_cases ho : orig = ' '
      · rw [← hmap, ho]
        decide
      · rw [← hmap, if_neg ho]
        exact hascii orig horig
    simp only [hAgree c hlt, isWordOrHyphen]

/-- Witness for C10 at the concrete ASCII input "Tai Po?" with the ASCII
instance of the word class. -/
theorem sanitize_filename_spec_witness :
    sanitize_filename_w (fun c => c.isAlphanum || c = '_') "Tai Po?"
      = sanitize_filename "Tai Po?" :=
  (sanitize_filename_spec (fun c => c.isAlphanum || c = '_') "Tai Po?"
      (by decide)).2.2.2.2 (by decide) (fun c h => rfl)

/-! ## Claim C1: the coffee-shop selection flow -/

/-- C1: on every map click selecting a coffee-shop object, the selection
handler stores the payload in `selected_shop`, increments the event
counter, stores under the next event key a deck whose view state is
centred on the selection (its latitude and longitude, zoom 18, bearing
and pitch 0), leaves every other event entry unchanged, and requests a
rerun; on a run with no such selection the handler leaves the session
state unchanged and requests no rerun. -/
theorem selection_flow_spec (st : SessionState) (obj : Shop) :
    (selectionStep (some obj) st).1.selected_shop = some obj
    ∧ (selectionStep (some obj) st).1.current_event_num = st.current_event_num + 1
    ∧ (selectionStep (some obj) st).1.events (eventKey (st.current_event_num + 1))
        = some ⟨⟨obj.latitude, obj.longitude, 18, 0, 0⟩⟩
    ∧ (∀ k, k ≠ eventKey (st.current_event_num + 1) →
        (selectionStep (some obj) st).1.events k = st.events k)
    ∧ (selectionStep (some obj) st).2 = true
    ∧ selectionStep none st = (st, false) := by
  refine ⟨rfl, rfl, ?_, ?_, rfl, rfl⟩
  · simp [selectionStep, setEvent, create_deck]
  · intro k hk
    simp [selectionStep, setEvent, hk]

/-- Witness for C1: at the concrete state `state0` and shop `shop0`, an
unrelated event key is left unchanged by the selection handler. -/
theorem selection_flow_spec_witness :
    (selectionStep (some shop0) state0).1.events "event99" = state0.events "event99" :=
  (selection_flow_spec state0 shop0).2.2.2.1 "event99" (by decide)

/-! ## Claim C7: idempotence of the Reset View handler -/

/-- C7 counterexample: the claim says no session-state operation satisfies
an idempotence law, but the coffee-shop page's Reset View handler does:
at this concrete session state (event counter 5, one stored deck, a
selected shop), applying it twice yields the same state as applying it
once. -/
theorem resetView_idempotent_cex :
    resetView (resetView ⟨5, setEvent (fun _ => none) (eventKey 1) (create_deck 22 114 10), some shop0⟩)
      = resetView ⟨5, setEvent (fun _ => none) (eventKey 1) (create_deck 22 114 10), some shop0⟩ := rfl

/-- C7 amended: round-trip and concurrency properties are indeed absent
from these pages, but the Reset View handler is an idempotent session-state
operation: it sets the events dictionary to empty, the selected shop to
`None` and the event counter to 1 regardless of the prior state, so
applying it twice equals applying it once. -/
theorem resetView_idempotent (st : SessionState) :
    resetView (resetView st) = resetView st
    ∧ resetView st = ⟨1, fun _ => none, none⟩ := ⟨rfl, rfl⟩

end Dash

namespace Dash

/-! ## Claim C2: error handling -/

/-- Helper for C2: when the query loop propagates an exception, some query
in the list failed with exactly that exception, and the page displayed the
formatted inline error for it. -/
theorem executeQueriesFrom_error_spec (exec : String → Except String Unit) :
    ∀ (qs : List String) (idx : Nat) (e : String),
      (executeQueriesFrom exec idx qs).2 = some e →
      ∃ j q, q ∈ qs ∧ exec q = .error e
        ∧ (executeQueriesFrom exec idx qs).1 = [format_query_error j e] := by
  intro qs
  induction qs with
  | nil =>
    intro idx e h
    simp [executeQueriesFrom] at h
  | cons q rest ih =>
    intro idx e h
    cases hq : exec q with
    | ok u =>
      rw [executeQueriesFrom, hq] at h
      obtain ⟨j, q2, hmem, herr, hmsg⟩ := ih (idx + 1) e h
      refine ⟨j, q2, List.mem_cons_of_mem _ hmem, herr, ?_⟩
      rw [executeQueriesFrom, hq]
      exact hmsg
    | error e2 =>
      rw [executeQueriesFrom, hq] at h
      simp only [Option.some.injEq] at h
      subst h
      exact ⟨idx, q, List.mem_cons_self q rest, hq, by rw [executeQueriesFrom, hq]⟩

/-- C2 counterexample: the claim says no caught exception is re-raised and
no database call runs outside a page-level handler.  Both fail on the
code: map.py's `execute_duckdb_queries` displays the inline error for the
failing query and then re-raises the exception (`raise e`) — here, at a
concrete failing query, the propagated component is `some "boom"` — and
SevenEleven.py's SELECT runs with no handler at all, so its exception
propagates with no inline message displayed. -/
theorem page_error_handling_cex :
    execute_duckdb_queries (fun _ => .error "boom")
        ["CREATE OR REPLACE TABLE North_lot AS SELECT 1"]
      = ([format_query_error 1 "boom"], some "boom")
    ∧ sevenEleven_load (fun _ => .error "boom") = ([], some "boom") :=
  ⟨rfl, rfl⟩

/-- C2 amended: where page-level handlers exist, a database exception is
caught and displayed as an inline message; but `execute_duckdb_queries`
re-raises the caught exception after displaying it (its caller in `main`
catches it again and stops), and some calls — e.g. the SevenEleven page's
SELECT — run outside any exception handler, so their exceptions propagate
with no inline message.  Formally: whenever `execute_duckdb_queries`
propagates an exception, some query failed with exactly that exception
and the formatted inline error for it was displayed; and the SevenEleven
load never displays a message and propagates an exception exactly when
its query fails. -/
theorem page_error_handling_amended :
    (∀ (exec : String → Except String Unit) (queries : List String) (e : String),
      (execute_duckdb_queries exec queries).2 = some e →
      ∃ j q, q ∈ queries ∧ exec q = .error e
        ∧ (execute_duckdb_queries exec queries).1 = [format_query_error j e])
    ∧ (∀ (exec : String → Except String Unit) (e : String),
      (sevenEleven_load exec).1 = []
      ∧ ((sevenEleven_load exec).2 = some e ↔ exec sevenEleven_query = .error e)) := by
  constructor
  · intro exec queries e h
    cases queries with
    | nil => simp [execute_duckdb_queries] at h
    | cons q rest =>
      rw [execute_duckdb_queries] at h ⊢
      simp only [List.isEmpty_cons, if_false, Bool.false_eq_true] at h ⊢
      exact executeQueriesFrom_error_spec exec (q :: rest) 1 e h
  · intro exec e
    constructor
    · cases h : exec sevenEleven_query <;> simp [sevenEleven_load, h]
    · cases h : exec sevenEleven_query <;> simp [sevenEleven_load, h]

/-- Witness for C2 amended, at a concrete failing execution. -/
theorem page_error_handling_amended_witness :
    ∃ j q, q ∈ ["SELECT * FROM t1"] ∧ (fun _ => Except.error "boom" : String → Except String Unit) q = .error "boom"
      ∧ (execute_duckdb_queries (fun _ => .error "boom") ["SELECT * FROM t1"]).1
          = [format_query_error j "boom"] :=
  page_error_handling_amended.1 (fun _ => .error "boom") ["SELECT * FROM t1"] "boom" rfl

/-! ## Claim C3: every page connects to the database first -/

/-- C3 counterexample: the Hongkong Population Distribution page is a
dashboard page that displays its data (an H3 hexagon map read from a CSV)
without ever opening a database connection or loading the spatial
extension. -/
theorem connect_first_cex :
    ("Hongkong Population Distribution", hk_population_steps) ∈ pages
    ∧ connectsBeforeFirstDisplay hk_population_steps = false :=
  ⟨by decide, rfl⟩

/-- C3 amended: every page that executes a database query opens a DuckDB
connection and loads the spatial extension before its first query (and
before displaying query results); the Hongkong Population Distribution and
Home pages display data without any database connection. -/
theorem connect_first_amended :
    pages.all (fun p => !(p.2.any isQuery)
        || (connectsBeforeFirstQuery p.2 && connectsBeforeFirstDisplay p.2)) = true
    ∧ (pages.filter (fun p => !(p.2.any isQuery))).map Prod.fst
        = ["Home", "Hongkong Population Distribution"] := by
  constructor
  · decide
  · decide

/-! ## Claim C4: no persistent store -/

/-- C4 counterexample: map.py's `execute_duckdb_queries` is a connection
site that opens the on-disk database file hong_kong_data.duckdb (not an
in-memory database) and runs CREATE OR REPLACE TABLE statements over it,
so the tables it produces are written to a persistent store that later
page loads and other sessions observe. -/
theorem no_persistent_store_cex :
    map_execute_site ∈ conn_sites ∧ persistsAcrossLoads map_execute_site = true :=
  ⟨by decide, rfl⟩

/-- C4 amended: the only connection site whose created tables live solely
within one render is the Citibike page's uncached in-memory connection
(closed at the end of its `main`); the coffee-shop and 7-Eleven pages only
read their pre-existing on-disk databases.  Three sites break the claim:
the Hong Kong housing page creates its tables in the on-disk database
hong_kong_data.duckdb, which persists across page loads and sessions; the
Holiday page's connection is cached process-wide by
`@st.cache_resource(ttl=1h)`, so its in-memory database and CREATEd
tables persist across reruns and sessions for the cache lifetime (its
`materialized_for_year` skip depends on this); and the Airbnb page's
connection string ":memory" (missing the trailing colon) denotes an
on-disk file into which it creates a table. -/
theorem no_persistent_store_amended :
    (conn_sites.filter persistsAcrossLoads).map ConnSite.page
      = ["map.execute_duckdb_queries", "Holiday Ridership Compare.get_db_connection",
         "Airbnb Street Density Map.connect_to_duckdb"]
    ∧ (conn_sites.filter (fun s => s.createsTables && !persistsAcrossLoads s)).map ConnSite.page
      = ["Citibike Data Dashboard.connect_to_duckdb"]
    ∧ (conn_sites.filter (fun s => !s.createsTables)).map ConnSite.page
      = ["map.execute_duckdb_select_query", "Foursquare POI.connect_to_duckdb",
         "SevenEleven.connect_to_duckdb", "OvertureMap POI.connect_to_duckdb"] := by
  refine ⟨?_, ?_, ?_⟩ <;> decide

end Dash

namespace Dash

/-! ## Claim C5: query builders and validation -/

/-- C5 counterexample: the claim says every user-supplied input reaches an
executed SQL string without any validation gating or rejecting it, but the
Overture page gates the category input.  With a categories file containing
"arts_and_entertainment.bar" and the user category "zzzz" — a
metacharacter-free pattern, on which `re.search` is exactly the substring
test `plainMatch`, and which matches no code — no query is constructed at
all, even though the country lookup returned a valid four-value bounding
box.  And the empty category is rejected by the truthiness gate regardless
of the matcher: even an all-accepting matcher yields no query. -/
theorem query_validation_cex :
    plainPattern "zzzz" = true
    ∧ overture_build_query plainMatch ["arts_and_entertainment.bar"] "zzzz" "Hong Kong"
        (some ["22.15", "22.57", "113.83", "114.44"]) = none
    ∧ overture_build_query (fun _ _ => true) ["arts_and_entertainment.bar"] "" "Hong Kong"
        (some ["22.15", "22.57", "113.83", "114.44"]) = none := by
  refine ⟨?_, ?_, ?_⟩ <;> decide

/-- C5 amended: query builders interpolate inputs into SQL text with no
escaping or injection protection — a constructed Overture query embeds the
raw user category verbatim, and the station-table query embeds the
selected year verbatim for every year, with no gate — but the Overture
page does gate its category input: whatever the semantics of the
regex-search matcher, a query is constructed only when the category is
non-empty and the matcher accepts it against some code of the categories
file, and whenever the matcher rejects the category against every code no
query is constructed at all. -/
theorem query_validation_amended :
    (∀ (matcher : String → String → Bool) (codes : List String) (cat country : String)
        (bbox : Option (List String)) (q : String),
      overture_build_query matcher codes cat country bbox = some q →
        SubstrOf cat q ∧ cat ≠ "" ∧ validCategory matcher codes cat = true)
    ∧ (∀ (matcher : String → String → Bool) (codes : List String) (cat country : String)
        (bbox : Option (List String)),
      validCategory matcher codes cat = false →
        overture_build_query matcher codes cat country bbox = none)
    ∧ (∀ year : Int, SubstrOf (toString year) (materialize_unique_stations_query year)) := by
  refine ⟨?_, ?_, ?_⟩
  · intro matcher codes cat country bbox q h
    unfold overture_build_query at h
    split at h
    case h_2 => exact absurd h (by simp)
    case h_1 op min_y max_y min_x max_x heq =>
      by_cases hv : (cat != "" && validCategory matcher codes cat) = true
      · rw [if_pos hv] at h
        simp only [Option.some.injEq] at h
        subst h
        refine ⟨?_, bne_iff_ne.mp (Bool.and_eq_true _ _ ▸ hv).1,
          (Bool.and_eq_true _ _ ▸ hv).2⟩
        unfold overture_query
        exact substrOf_append_middle _ cat _
      · rw [if_neg hv] at h
        exact absurd h (by simp)
  · intro matcher codes cat country bbox hv
    unfold overture_build_query
    split
    case h_1 op min_y max_y min_x max_x heq => simp [hv]
    case h_2 => rfl
  · intro year
    unfold materialize_unique_stations_query
    exact substrOf_append_middle _ (toString year) _

/-- Witness for C5 amended: with a categories file containing "cafe" and
the user category "cafe" (metacharacter-free, so `plainMatch` is the
regex-search), a query is constructed, embeds the category verbatim, and
the gate reports a match. -/
theorem query_validation_amended_witness :
    SubstrOf "cafe" (overture_query "113.83" "114.44" "22.15" "22.57" "cafe")
    ∧ "cafe" ≠ ""
    ∧ validCategory plainMatch ["cafe"] "cafe" = true :=
  query_validation_amended.1 plainMatch ["cafe"] "cafe" "Hong Kong"
    (some ["22.15", "22.57", "113.83", "114.44"]) _ rfl

end Dash

namespace Dash

/-! ## Claim C6: split-district lot tables -/

set_option maxRecDepth 10000 in
/-- C6: for each of the three districts with multi-part Parquet splits
(North, Tai Po, Yuen Long — compared after sanitizing), the first query
builds the lot table from exactly the four part files
data/{name}_lot_part1.parquet … part4.parquet with geometry simplified
(`ST_simplify`), while for every other of the 18 districts the first query
loads the single file data/{name}_lot.parquet and the query text contains
no `ST_simplify` and no part file. -/
theorem split_district_lot_queries :
    (hk_districts.all (fun d =>
      let n := sanitize_filename d
      let q1 := (build_duckdb_queries n (district_lot_path n) (district_housing_path n) goodHousing).head?
      if n == "North" || n == "Tai_Po" || n == "Yuen_Long" then
        q1 == some (query1_split n)
        && part_files n == ["data/" ++ n ++ "_lot_part1.parquet",
             "data/" ++ n ++ "_lot_part2.parquet",
             "data/" ++ n ++ "_lot_part3.parquet",
             "data/" ++ n ++ "_lot_part4.parquet"]
        && containsSub "ST_simplify".data (query1_split n).data
      else
        q1 == some (query1_single n (district_lot_path n))
        && containsSub ("FROM read_parquet(" ++ sq ++ "data/" ++ n ++ "_lot.parquet" ++ sq ++ ")").data
             (query1_single n (district_lot_path n)).data
        && !containsSub "ST_simplify".data (query1_single n (district_lot_path n)).data
        && !containsSub "_part".data (query1_single n (district_lot_path n)).data)) = true := by
  decide

end Dash

namespace Dash

/-! ## Claim C8: shape of build_duckdb_queries -/

/-- An ijson event cannot be both a feature start and the features-array
end (the prefixes differ). -/
theorem featureStart_not_featuresEnd (pe : IjsonEvent) :
    featureStart pe = true → featuresEnd pe = false := by
  intro h
  unfold featureStart at h
  unfold featuresEnd
  rcases Bool.and_eq_true _ _ ▸ h with ⟨h1, _⟩
  have hp : pe.1 = "features.item" := beq_iff_eq.mp h1
  rw [hp]
  simp [show (("features.item" : String) == "features") = false from rfl]

/-- The scan loop of `is_geojson_empty` reports a non-empty file exactly
when a feature-start event occurs before the first features-array-end
event. -/
theorem isGeojsonEmptyLoop_false_iff (evs : List IjsonEvent) :
    isGeojsonEmptyLoop evs = false ↔
      ((evs.takeWhile (fun pe => !featuresEnd pe)).any featureStart) = true := by
  induction evs with
  | nil => simp [isGeojsonEmptyLoop]
  | cons pe rest ih =>
    by_cases h1 : featureStart pe = true
    · have h2 := featureStart_not_featuresEnd pe h1
      simp [isGeojsonEmptyLoop, h1, List.takeWhile_cons, h2]
    · by_cases h2 : featuresEnd pe = true
      · simp [isGeojsonEmptyLoop, h1, h2, List.takeWhile_cons]
      · simp only [Bool.not_eq_true] at h1 h2
        simp [isGeojsonEmptyLoop, h1, h2, List.takeWhile_cons, ih]

/-- C8: `build_duckdb_queries` returns the empty list exactly when the
housing GeoJSON file is missing or `is_geojson_empty` holds of it, where
`is_geojson_empty` is true on a parse error and, on a parsed event stream,
exactly when no feature starts before the features array ends; otherwise
it returns, in order, the lot-table query, the housing_units query, the
average_price_per_lot query and the lots_with_avg_price query. -/
theorem build_queries_shape (name lotPath housingPath : String) (housing : HousingFile) :
    (build_duckdb_queries name lotPath housingPath housing = []
      ↔ housing = .missing ∨ ∃ p, housing = .file p ∧ is_geojson_empty p = true)
    ∧ (∀ p, housing = .file p → is_geojson_empty p = false →
        build_duckdb_queries name lotPath housingPath housing =
          [(if split_districts.contains name then query1_split name
            else query1_single name lotPath),
           query2_housing housingPath, query3_avg name, query4_join name])
    ∧ (∀ e, is_geojson_empty (.error e) = true)
    ∧ (∀ evs, is_geojson_empty (.ok evs) = true ↔
        ((evs.takeWhile (fun pe => !featuresEnd pe)).any featureStart) = false) := by
  refine ⟨?_, ?_, ?_, ?_⟩
  · cases housing with
    | missing => simp [build_duckdb_queries]
    | file p =>
      cases h : is_geojson_empty p with
      | true =>
        simp only [build_duckdb_queries, h, if_true]
        constructor
        · intro _
          exact Or.inr ⟨p, rfl, h⟩
        · intro _
          trivial
      | false =>
        simp only [build_duckdb_queries, h, if_false]
        constructor
        · intro hcon
          exact absurd hcon (by simp)
        · rintro (hmiss | ⟨p2, hp2, hemp⟩)
          · exact absurd hmiss (by simp)
          · cases hp2
            rw [h] at hemp
            exact absurd hemp (by simp)
  · intro p hp hemp
    cases hp
    simp [build_duckdb_queries, hemp]
  · intro e
    rfl
  · intro evs
    have h := isGeojsonEmptyLoop_false_iff evs
    show isGeojsonEmptyLoop evs = true ↔ _
    constructor
    · intro ht
      cases hb : (evs.takeWhile (fun pe => !featuresEnd pe)).any featureStart with
      | false => rfl
      | true =>
        rw [h.mpr hb] at ht
        exact absurd ht (by simp)
    · intro hb
      cases ht : isGeojsonEmptyLoop evs with
      | true => rfl
      | false =>
        rw [h.mp ht] at hb
        exact absurd hb (by simp)

/-- Witness for C8: for the concrete district name "Eastern" and a housing
file with one feature, the four queries are produced in order. -/
theorem build_queries_shape_witness :
    build_duckdb_queries "Eastern" (district_lot_path "Eastern")
        (district_housing_path "Eastern") goodHousing =
      [(if split_districts.contains "Eastern" then query1_split "Eastern"
        else query1_single "Eastern" (district_lot_path "Eastern")),
       query2_housing (district_housing_path "Eastern"), query3_avg "Eastern",
       query4_join "Eastern"] :=
  (build_queries_shape "Eastern" (district_lot_path "Eastern")
    (district_housing_path "Eastern") goodHousing).2.1
    (.ok [("features.item", "start_map")]) rfl rfl

/-! ## Claim C9: load_citibike_data -/

/-- C9: for every year, the sample table is named
`citibike_sample_{year}_12percent`; the sample-creating query takes a 12%
Bernoulli sample (`USING SAMPLE 12% (BERNOULLI)`), not the 25% stated in
the source docstring, of the main table restricted to that year
(`WHERE year={year}`); a `None` connection yields `None`; a successful
load returns exactly the Arrow table fetched from the sample table; and
any failing step yields `None`. -/
theorem load_citibike_data_spec (year : Int) :
    citibike_sample_table year = "citibike_sample_" ++ toString year ++ "_12percent"
    ∧ SubstrOf "USING SAMPLE 12% (BERNOULLI)" (query_create_sample_table year)
    ∧ SubstrOf ("WHERE year=" ++ toString year) (query_create_main_table year)
    ∧ load_citibike_data none year = none
    ∧ (∀ c t, load_citibike_data (some c) year = some t →
        c.runArrow ("SELECT * FROM " ++ citibike_sample_table year) = .ok t)
    ∧ (∀ c, ((∃ e, c.run (query_create_main_table year) = .error e)
          ∨ (∃ e, c.run (query_create_sample_table year) = .error e)
          ∨ (∃ e, c.runArrow ("SELECT * FROM " ++ citibike_sample_table year) = .error e)) →
        load_citibike_data (some c) year = none) := by
  refine ⟨rfl, ?_, ?_, rfl, ?_, ?_⟩
  · unfold query_create_sample_table
    exact substrOf_append_middle _ "USING SAMPLE 12% (BERNOULLI)" _
  · unfold query_create_main_table
    exact substrOf_append_middle _ ("WHERE year=" ++ toString year) _
  · intro c t h
    rw [show load_citibike_data (some c) year = load_citibike_body c year from rfl] at h
    unfold load_citibike_body at h
    cases h1 : c.run (query_create_main_table year) with
    | error e => rw [h1] at h; exact absurd h (by simp)
    | ok u =>
      rw [h1] at h
      cases h2 : c.run (query_create_sample_table year) with
      | error e => rw [h2] at h; exact absurd h (by simp)
      | ok v =>
        rw [h2] at h
        cases h3 : c.runArrow ("SELECT * FROM " ++ citibike_sample_table year) with
        | error e => rw [h3] at h; exact absurd h (by simp)
        | ok t2 =>
          rw [h3] at h
          simp only [Option.some.injEq] at h
          rw [h]
  · intro c herr
    rw [show load_citibike_data (some c) year = load_citibike_body c year from rfl]
    unfold load_citibike_body
    cases h1 : c.run (query_create_main_table year) with
    | error e => rfl
    | ok u =>
      cases h2 : c.run (query_create_sample_table year) with
      | error e => rfl
      | ok v =>
        cases h3 : c.runArrow ("SELECT * FROM " ++ citibike_sample_table year) with
        | error e => rfl
        | ok t =>
          rcases herr with ⟨e, he⟩ | ⟨e, he⟩ | ⟨e, he⟩
          · rw [h1] at he; exact absurd he (by simp)
          · rw [h2] at he; exact absurd he (by simp)
          · rw [h3] at he; exact absurd he (by simp)

/-- Witness for C9: on a connection whose statements all succeed and whose
sample fetch returns a 42-row table, the load for 2024 returns exactly
that table. -/
theorem load_citibike_data_spec_witness :
    con_ok.runArrow ("SELECT * FROM " ++ citibike_sample_table 2024) = .ok ⟨42⟩ :=
  (load_citibike_data_spec 2024).2.2.2.2.1 con_ok ⟨42⟩ rfl

end Dash
